import Mathlib

/-!
Verification development for the `ollama-lan` streaming chat client
(source: `ollama-lan.py`).

Modelling conventions for the shallow embedding:
- Python dictionaries holding JSON-like data are modelled by the inductive
  `PyVal` (strings, integers, booleans, nested dictionaries as association
  lists preserving insertion order).
- Python floats are modelled as exact rationals (`ℚ`); the nanosecond
  telemetry values are integers, so all arithmetic performed by the program
  on them is exact.
- Python truthiness is the function `pyTruthy`.
- Chat messages `{"role": ..., "content": ...}` are the structure
  `ChatMessage`.
- The streaming HTTP response consumed by `stream_chat` is modelled as an
  explicit list of stream items (decoded event, blank line, decode failure,
  transport failure), plus a possible connection-phase failure; the
  monotonic-clock reading taken while an event is processed is attached to
  the event.
-/

/-- A Python/JSON value as used by the program: strings, ints, bools and
(insertion-ordered) dictionaries. -/
inductive PyVal where
  | str (s : String)
  | int (n : ℤ)
  | bool (b : Bool)
  | dict (entries : List (String × PyVal))

abbrev PyDict := List (String × PyVal)

/-- Python truthiness of a value. -/
def pyTruthy : PyVal → Bool
  | .str s => s != ""
  | .int n => n != 0
  | .bool b => b
  | .dict d => !d.isEmpty

/-- Truthiness of `d.get(k)`-style lookups (`None` is falsy). -/
def pyTruthyOpt : Option PyVal → Bool
  | none => false
  | some v => pyTruthy v

/-- `d.get(k)`: first (unique) binding of `k` in the dictionary. -/
def dget : PyDict → String → Option PyVal
  | [], _ => none
  | (k', v) :: rest, k => if k' = k then some v else dget rest k

/-- `d.get(k, default)`. -/
def dgetD (d : PyDict) (k : String) (default : PyVal) : PyVal :=
  (dget d k).getD default

/-- `d[k] = v`: replace the binding in place, else append (Python dicts keep
insertion order). -/
def dset : PyDict → String → PyVal → PyDict
  | [], k, v => [(k, v)]
  | (k', v') :: rest, k, v =>
    if k' = k then (k, v) :: rest else (k', v') :: dset rest k v

/-- View a value as a dictionary (the program only calls `.get` on values
that are dictionaries on the data it handles). -/
def asDict : PyVal → PyDict
  | .dict d => d
  | _ => []

/-- The string carried by `message["content"]` / `message["thinking"]`; the
service always sends strings in these fields (Python would raise on `+=`
for any other type). -/
def strVal : Option PyVal → String
  | some (.str s) => s
  | _ => ""

/-- Python whitespace (the ASCII whitespace characters; the program only
handles ASCII whitespace in practice). Used both for `str.strip()` and for
the regex class `\s`. -/
def isSpacePy (c : Char) : Bool :=
  c == ' ' || c == '\t' || c == '\n' || c == '\r' || c == '\x0b' || c == '\x0c'

/-- `str.strip()` on a character list. -/
def pyStripChars (l : List Char) : List Char :=
  ((l.dropWhile isSpacePy).reverse.dropWhile isSpacePy).reverse

/-- `str.strip()`. -/
def pyStripStr (s : String) : String := String.mk (pyStripChars s.data)

/-- A chat message `{"role": ..., "content": ...}`. -/
structure ChatMessage where
  role : String
  content : String
deriving DecidableEq, Repr

/- Constants of the source file. -/

def APP_TITLE : String := "ollama-lan"

def DEFAULT_BASE_URL : String := "http://localhost:11434"

def STREAM_UI_UPDATE_INTERVAL_SECONDS : ℚ := 12 / 100

def STREAM_UI_UPDATE_MIN_CHARS : ℤ := 24

def STATUS_READY : String := "ready"

def STATUS_GENERATING : String := "gen"

def STATUS_THINKING : String := "think"

def STATUS_ERROR : String := "err"

/-- `status_text`: status-key to label mapping (dictionary `.get` with a
default). -/
def status_text (status : String) : String :=
  if status = STATUS_READY then "🟢 Ready"
  else if status = STATUS_GENERATING then "✍ Generating"
  else if status = STATUS_THINKING then " 🧠 Thinking"
  else if status = STATUS_ERROR then "⚠️ Ollama unreachable"
  else "🟢 Ready"

/-- `header_text`. -/
def header_text (status : String) : String :=
  "## " ++ APP_TITLE ++ " ㅤ " ++ status_text status

/-- Drop all trailing slashes (`url.rstrip("/")`). -/
def rstripSlash (s : String) : String :=
  String.mk ((s.data.reverse.dropWhile (fun c => c == '/')).reverse)

/-- `normalize_base_url` (the `base_url or DEFAULT_BASE_URL` of the source
treats an empty string like `None`). -/
def normalize_base_url (base_url : String) : String :=
  let url := pyStripStr (if base_url = "" then DEFAULT_BASE_URL else base_url)
  let url := if url = "" then DEFAULT_BASE_URL else url
  rstripSlash url

/- Numeric helpers: Python floats are modelled as exact rationals. -/

/-- Numeric value of a Python object as `float()` sees it; the program only
applies this to JSON numbers (integers in our model) and booleans.
Values on which Python `float()` would raise are mapped to 0 (dead paths on
the data the program handles). -/
def pyNum : PyVal → ℚ
  | .int n => (n : ℚ)
  | .bool b => if b then 1 else 0
  | .str _ => 0
  | .dict _ => 0

/-- `ns_to_s`: nanoseconds to seconds, with 0.0 for falsy/absent values. -/
def ns_to_s (value : Option PyVal) : ℚ :=
  match value with
  | none => 0
  | some v => if pyTruthy v then pyNum v / 1000000000 else 0

/-- `compute_speed`. -/
def compute_speed (count duration_ns : Option PyVal) : ℚ :=
  let duration_s := ns_to_s duration_ns
  if pyTruthyOpt count = false ∨ duration_s ≤ 0 then 0
  else pyNum ((count).getD (.int 0)) / duration_s

/-- Floor of a rational as an integer (`Int.fdiv` floors the quotient). -/
def ratFloorZ (q : ℚ) : ℤ := Int.fdiv q.num (q.den : ℤ)

/-- Absolute value, kept kernel-reducible. -/
def ratAbs (q : ℚ) : ℚ := if q < 0 then -q else q

/-- Round a rational to the nearest integer, ties to even (the rounding used
by Python float formatting, applied here to the exact value). -/
def roundHalfEven (q : ℚ) : ℤ :=
  let f := ratFloorZ q
  let r := q - (f : ℚ)
  if r < 1 / 2 then f
  else if (1 : ℚ) / 2 < r then f + 1
  else if f % 2 = 0 then f else f + 1

/-- Left-pad a string with zeros to the given width. -/
def padLeftZeros (w : ℕ) (s : String) : String :=
  String.mk (List.replicate (w - s.length) '0') ++ s

/-- Fixed-point rendering of a rational with `digits` fractional digits,
modelling Python `f"{x:.2f}"`-style formatting. -/
def formatFixedQ (digits : ℕ) (q : ℚ) : String :=
  let scale : ℤ := (10 : ℤ) ^ digits
  let n := roundHalfEven (ratAbs q * (scale : ℚ))
  let ip := n / scale
  let fp := n % scale
  (if q < 0 then "-" else "") ++ toString ip ++ "." ++ padLeftZeros digits (toString fp)

/-- Insert `,` every three digits, input is the reversed digit list. -/
def commaChunks : List Char → List Char
  | a :: b :: c :: d :: rest => a :: b :: c :: ',' :: commaChunks (d :: rest)
  | l => l

/-- `f"{n:,}"`: thousands separators. -/
def intComma (n : ℤ) : String :=
  (if n < 0 then "-" else "") ++
    String.mk ((commaChunks (toString n.natAbs).data.reverse).reverse)

/-- `format_metrics`. -/
def format_metrics (meta : PyDict) : String :=
  let prompt_tps := compute_speed (dget meta "prompt_eval_count") (dget meta "prompt_eval_duration")
  let gen_tps := compute_speed (dget meta "eval_count") (dget meta "eval_duration")
  let total_s := ns_to_s (dget meta "total_duration")
  let load_s := ns_to_s (dget meta "load_duration")
  "### Response Metrics\n" ++
    "- Prompt speed: **" ++ formatFixedQ 2 prompt_tps ++ " tok/s**\n" ++
    "- Generation speed: **" ++ formatFixedQ 2 gen_tps ++ " tok/s**\n" ++
    "- Total duration: **" ++ formatFixedQ 2 total_s ++ " s**\n" ++
    "- Load duration: **" ++ formatFixedQ 2 load_s ++ " s**"

/-- `choose_model`: `preferred_model` is `str | None`; Python truthiness
means `None` and the empty string never win. The `model_names[0]` indexing
raises on an empty list, modelled by `Option`. -/
def choose_model (model_names : List String) (preferred_model : Option String) : Option String :=
  match preferred_model with
  | some p => if p ≠ "" ∧ p ∈ model_names then some p else model_names.head?
  | none => model_names.head?

/- Formatting helpers for `build_model_info`. -/

/-- `str(value)` on the values the program can reach here. A dictionary
rendering is elided (Python would print its items; the program never reaches
that case on well-formed metadata). -/
def pyStr : PyVal → String
  | .str s => s
  | .int n => toString n
  | .bool b => if b then "True" else "False"
  | .dict _ => "\x7b...\x7d"

/-- `optional_str`: `None`/empty-string become `None`, everything else is
`str(value)`. Only equality with the empty string is truthy-relevant: Python
`value == ""` is `False` for non-strings. -/
def optional_str : Option PyVal → Option String
  | none => none
  | some (.str "") => none
  | some v => some (pyStr v)

/-- `int(str)` for plain optionally signed decimal strings (the forms the
program can meet); everything else fails. -/
def parseIntOpt (s : String) : Option ℤ :=
  let cs := pyStripChars s.data
  let (sign, digits) :=
    match cs with
    | '-' :: rest => ((-1 : ℤ), rest)
    | '+' :: rest => ((1 : ℤ), rest)
    | _ => ((1 : ℤ), cs)
  if digits = [] ∨ ¬ digits.all Char.isDigit then none
  else some (sign * (digits.foldl (fun acc c => acc * 10 + (c.toNat - 48)) 0 : ℕ))

/-- `int(value)`: integers pass through, booleans become 0/1, strings are
parsed, dictionaries raise. -/
def pyToInt : PyVal → Option ℤ
  | .int n => some n
  | .bool b => some (if b then 1 else 0)
  | .str s => parseIntOpt s
  | .dict _ => none

/-- The unit table of `format_bytes`. -/
def bytesUnit : ℕ → String
  | 0 => "B"
  | 1 => "KB"
  | 2 => "MB"
  | 3 => "GB"
  | _ => "TB"

/-- The `while size >= 1024 and idx < len(units) - 1` loop of
`format_bytes`; starting at index 0 it runs at most 4 iterations, so fuel 4
is exact. -/
def fbLoop : ℕ → ℚ → ℕ → ℚ × ℕ
  | 0, size, idx => (size, idx)
  | fuel + 1, size, idx =>
    if 1024 ≤ size ∧ idx < 4 then fbLoop fuel (size / 1024) (idx + 1) else (size, idx)

/-- `format_bytes`. -/
def format_bytes (num_bytes : Option PyVal) : Option String :=
  if pyTruthyOpt num_bytes = false then none
  else
    let si := fbLoop 4 (pyNum (num_bytes.getD (.int 0))) 0
    some (formatFixedQ 2 si.1 ++ " " ++ bytesUnit si.2)

/-- `format_context_length`. -/
def format_context_length (value : Option PyVal) : Option String :=
  match value with
  | none => none
  | some (.str "") => none
  | some v =>
    match pyToInt v with
    | some size =>
      if 1024 ≤ size then
        let kilo : ℚ := (size : ℚ) / 1024
        if kilo.den = 1 then some (toString kilo.num ++ "k")
        else some (formatFixedQ 1 kilo ++ "k")
      else some (intComma size)
    | none => some (pyStr v)

/-- One `- Label: **value**` line of `build_model_info`, or nothing. -/
def infoLine (label : String) (value : Option String) : List String :=
  match value with
  | some v => ["- " ++ label ++ ": **" ++ v ++ "**"]
  | none => []

/-- `build_model_info` (`selected_model` is `str | None`; `None` is modelled
by the falsy empty string). -/
def build_model_info (selected_model : String) (model_map : PyDict) : String :=
  if selected_model = "" then "### Selected Model\nNo model selected."
  else
    let mval := dget model_map selected_model
    if pyTruthyOpt mval = false then
      "### Selected Model\n`" ++ selected_model ++ "` metadata unavailable."
    else
      let model_meta := asDict (mval.getD (.dict []))
      let details := asDict (dgetD model_meta "details" (.dict []))
      let vram_size := format_bytes (dget model_meta "size_vram")
      let family := optional_str (dget details "family")
      let quantization := optional_str (dget details "quantization_level")
      let param_size := optional_str (dget details "parameter_size")
      let context_length := format_context_length (dget model_meta "context_length")
      let lines := ["### " ++ selected_model] ++
        infoLine "Family" family ++
        infoLine "Parameters" param_size ++
        infoLine "Quantization" quantization ++
        infoLine "VRAM size" vram_size ++
        infoLine "Context length" context_length
      String.intercalate "\n" lines

/-!
## Math Notation Normalizer (`render_assistant_text`)

The two regex substitutions of the source are implemented as explicit
scanners over character lists, with the exact Python `re.sub` semantics
(leftmost match, resume after the match, greedy `\s*` with backtracking,
lazy `(.*?)`):

- block pattern: `(?ms)(^|\n)\s*\\?\[\s*\n(.*?)\n\s*\\?\]\s*(?=\n|$)`,
  replaced by `group1 ++ "$$\n" ++ strip group2 ++ "\n$$"`;
- inline pattern: `\[\s*([^\[\]\n]*[=\\^_][^\[\]\n]*)\s*\]`, replaced by
  `"$$" ++ strip group1 ++ "$$"` (backtracking of the two `\s*` makes the
  captured group equal to the bracket interior up to surrounding
  whitespace, which `.strip()` removes anyway).
-/

/-- The operator-character heuristic of the inline pattern (`[=\\^_]`). -/
def isMathOp (c : Char) : Bool := c == '=' || c == '\\' || c == '^' || c == '_'

/-- Split after an inline-math opening bracket: the interior runs to the
first `]`, provided no `[` intervenes (neither `\s` nor the inner character
class matches a bracket). -/
def innerSpanSplit (l : List Char) : Option (List Char × List Char) :=
  match l.findIdx? (fun c => c == ']' || c == '[') with
  | none => none
  | some j =>
    match l.get? j with
    | some ']' => some (l.take j, l.drop (j + 1))
    | _ => none

/-- Scanner for the inline substitution. A bracket interior matches when its
whitespace-trimmed middle contains an operator character and no newline (the
two `\s*` of the pattern may absorb newlines at the ends, the captured group
may not contain one; `.strip()` of the group is exactly the trimmed middle).
The fuel is the list length; every step consumes at least one character, so
the fuel never runs out when the scanner is started with `fuel = cs.length`. -/
def inlineSubAux : ℕ → List Char → List Char
  | 0, cs => cs
  | _ + 1, [] => []
  | fuel + 1, c :: rest =>
    if c = '[' then
      match innerSpanSplit rest with
      | some (inn, rest2) =>
        if (pyStripChars inn).any isMathOp ∧ ¬ (pyStripChars inn).contains '\n' then
          '$' :: '$' :: (pyStripChars inn ++ '$' :: '$' :: inlineSubAux fuel rest2)
        else c :: inlineSubAux fuel rest
      | none => c :: inlineSubAux fuel rest
    else c :: inlineSubAux fuel rest

/-- One full pass of `inline_pattern.subn`. -/
def inlineSub (cs : List Char) : List Char := inlineSubAux cs.length cs

/-- Consume `\\?\[` ( `\` and `[` are not whitespace, so no backtracking
freedom remains here). -/
def dropOpenBracket : List Char → Option (List Char)
  | [] => none
  | c :: r =>
    if c = '\\' then
      match r with
      | [] => none
      | c2 :: r2 => if c2 = '[' then some r2 else none
    else if c = '[' then some r else none

/-- Consume `\\?\]`. -/
def dropCloseBracket : List Char → Option (List Char)
  | [] => none
  | c :: r =>
    if c = '\\' then
      match r with
      | [] => none
      | c2 :: r2 => if c2 = ']' then some r2 else none
    else if c = ']' then some r else none

/-- Ascending positions of newline characters in a list. -/
def nlIndicesAsc : List Char → List ℕ
  | [] => []
  | c :: rest =>
    (if c = '\n' then [0] else []) ++ (nlIndicesAsc rest).map (· + 1)

/-- Match `\s*\\?\]\s*(?=\n|$)` after the closing newline of a block: skip
whitespace, consume the (optionally escaped) `]`, then the greedy trailing
`\s*` consumes up to the end of input, or otherwise up to just before the
last newline of the whitespace run (the lookahead then sees that newline).
Returns the remaining input and whether the last consumed character was a
newline (which determines whether `^` matches at the resume position). -/
def closeTail (l3 : List Char) : Option (List Char × Bool) :=
  match dropCloseBracket (l3.dropWhile isSpacePy) with
  | none => none
  | some r =>
    let w3 := r.takeWhile isSpacePy
    let after3 := r.drop w3.length
    if after3 = [] then some ([], false)
    else
      match (nlIndicesAsc w3).reverse with
      | [] => none
      | k :: _ =>
        some (r.drop k, decide (0 < k ∧ w3.get? (k - 1) = some '\n'))

/-- The lazy `(.*?)\n` search: find the first newline whose suffix matches
the closing tail; on failure the newline joins the content and the search
continues. Returns the content group, the rest of the input after the match
and the resume flag. -/
def findClose : List Char → Option (List Char × List Char × Bool)
  | [] => none
  | c :: rest =>
    if c = '\n' then
      match closeTail rest with
      | some (rest2, flag) => some ([], rest2, flag)
      | none =>
        match findClose rest with
        | some (content, r2, f) => some (c :: content, r2, f)
        | none => none
    else
      match findClose rest with
      | some (content, r2, f) => some (c :: content, r2, f)
      | none => none

/-- Backtracking over the `\s*\n` after the opening bracket: the greedy
`\s*` first ends just before the last newline of the whitespace run, then
retreats to earlier newlines if the rest of the pattern fails. -/
def tryOpenLoop (l2 : List Char) : List ℕ → Option (List Char × List Char × Bool)
  | [] => none
  | k :: ks =>
    match findClose (l2.drop (k + 1)) with
    | some r => some r
    | none => tryOpenLoop l2 ks

/-- Attempt a block match just after the `(^|\n)` group: `\s*\\?\[`, then the
newline choices of `\s*\n`, then content and closing tail. -/
def tryOpen (l : List Char) : Option (List Char × List Char × Bool) :=
  match dropOpenBracket (l.dropWhile isSpacePy) with
  | none => none
  | some l2 => tryOpenLoop l2 ((nlIndicesAsc (l2.takeWhile isSpacePy)).reverse)

/-- The `(^|\n)` alternation at the current scan position: at a
line start `^` matches with an empty group (tried first, and whenever both
alternatives match the overall results only differ in the kept group);
otherwise a literal newline can be consumed as the group. -/
def blockAttempt (atStart : Bool) (c : Char) (rest : List Char) :
    Option (List Char × List Char × List Char × Bool) :=
  if atStart then (tryOpen (c :: rest)).map (fun r => ([], r.1, r.2.1, r.2.2))
  else if c = '\n' then (tryOpen rest).map (fun r => (['\n'], r.1, r.2.1, r.2.2))
  else none

/-- Scanner for the block substitution; fuel as in `inlineSubAux`. -/
def blockSubAux : ℕ → Bool → List Char → List Char
  | 0, _, cs => cs
  | _ + 1, _, [] => []
  | fuel + 1, atStart, c :: rest =>
    match blockAttempt atStart c rest with
    | some (g1, content, rest2, flag) =>
      g1 ++ '$' :: '$' :: '\n' :: (pyStripChars content ++ '\n' :: '$' :: '$' :: blockSubAux fuel flag rest2)
    | none => c :: blockSubAux fuel (c == '\n') rest

/-- One full pass of `block_pattern.subn`. -/
def blockSub (cs : List Char) : List Char := blockSubAux cs.length true cs

/-- `text.replace("\r\n", "\n")` (left-to-right, non-overlapping). -/
def replaceCRLF : List Char → List Char
  | [] => []
  | [c] => [c]
  | c :: d :: rest =>
    if c = '\r' ∧ d = '\n' then '\n' :: replaceCRLF rest
    else c :: replaceCRLF (d :: rest)

/-- `text.replace("\r", "\n")`. -/
def replaceCR (l : List Char) : List Char :=
  l.map (fun c => if c = '\r' then '\n' else c)

/-- `render_assistant_text`: newline normalization, block substitution,
inline substitution. -/
def render_assistant_text (text : String) : String :=
  String.mk (inlineSub (blockSub (replaceCR (replaceCRLF text.data))))

/-!
## Chat Streaming State Machine (`stream_chat`)

`stream_chat` is a generator; it is modelled as a function from its inputs
plus an explicit description of the network interaction to the list of
yielded snapshots. The inbound stream is a list of items (blank line,
decoded event with the monotonic-clock reading taken while processing it,
json-decode failure, transport failure while reading); the connection phase
(`requests.post` + `raise_for_status`) may fail before any line arrives.
The post-turn `/api/ps` probe is an external collaborator and enters as an
optional result dictionary.
-/

/-- One yielded snapshot: the 7-tuple
`(chatbot, ui_history, api_history, headline, metrics, model_info,
model_map)` of the source. -/
structure Snapshot where
  chatbot : List ChatMessage
  uiHistory : List ChatMessage
  apiHistory : List ChatMessage
  headline : String
  metricsText : String
  modelInfoText : String
  modelMap : PyDict

/-- One unit of the inbound line stream. -/
inductive StreamItem where
  /-- An empty line (`if not line: continue`). -/
  | blank
  /-- A non-empty line that decodes to the JSON object `payload`; `now` is
  the `time.monotonic()` reading taken if this event consults the clock. -/
  | event (payload : PyDict) (now : ℚ)
  /-- `json.loads` raises `JSONDecodeError` with this rendered detail. -/
  | decodeFailure (detail : String)
  /-- The transport raises `RequestException` (read timeout, dropped
  connection) while iterating, with this rendered detail. -/
  | readFailure (detail : String)

/-- The network interaction of one turn. -/
inductive StreamInput where
  /-- `requests.post` or `raise_for_status` raises (connection refused,
  connect timeout, non-success HTTP status), with this rendered detail. -/
  | connectFailure (detail : String)
  /-- The connection succeeds and the body yields these items in order. -/
  | body (items : List StreamItem)

/-- The loop state of the streaming read loop. -/
structure LoopState where
  text : String
  final_meta : PyDict
  last_ui_emit : ℚ
  last_ui_len : ℕ
  display_history : List ChatMessage

/-- The per-turn constants every in-loop yield repeats. -/
structure TurnCtx where
  clean_api : List ChatMessage
  model_info : String
  model_map : PyDict

/-- Result of processing a single decoded event. -/
structure EventOutcome where
  state : LoopState
  snaps : List Snapshot
  isDone : Bool

/-- Result of the whole read loop: emitted snapshots, final loop state, and
the detail of the caught exception if one aborted the loop. -/
structure StreamOutcome where
  snaps : List Snapshot
  state : LoopState
  failure : Option String

/-- `lst[-1] = m` (the program only applies it to non-empty lists). -/
def setLast : List ChatMessage → ChatMessage → List ChatMessage
  | [], _ => []
  | [_], m => [m]
  | x :: rest, m => x :: setLast rest m

/-- Line 264 of the source:
`status_key = STATUS_THINKING if message_event.get("thinking") else STATUS_GENERATING`. -/
def event_status_key (message_event : PyDict) : String :=
  if pyTruthyOpt (dget message_event "thinking") = true then STATUS_THINKING
  else STATUS_GENERATING

/-- One iteration of the read loop for a decoded event. -/
def processEvent (ctx : TurnCtx) (st : LoopState) (payload : PyDict) (now : ℚ) :
    EventOutcome :=
  let message_event := asDict (dgetD payload "message" (.dict []))
  let status_key := event_status_key message_event
  let text :=
    if pyTruthyOpt (dget message_event "content") = true then
      st.text ++ strVal (dget message_event "content")
    else st.text
  let hasDone := pyTruthyOpt (dget payload "done")
  let newMeta := if hasDone = true then payload else st.final_meta
  if pyTruthyOpt (dget message_event "thinking") = true
      ∨ pyTruthyOpt (dget message_event "content") = true then
    let chars_delta : ℤ := (text.length : ℤ) - (st.last_ui_len : ℤ)
    if STREAM_UI_UPDATE_MIN_CHARS ≤ chars_delta
        ∨ STREAM_UI_UPDATE_INTERVAL_SECONDS ≤ now - st.last_ui_emit
        ∨ (pyTruthyOpt (dget message_event "thinking") = true
            ∧ pyTruthyOpt (dget message_event "content") = false) then
      let display := setLast st.display_history ⟨"assistant", text⟩
      { state := { text := text, final_meta := newMeta, last_ui_emit := now,
                   last_ui_len := text.length, display_history := display },
        snaps := [⟨display, display, ctx.clean_api, header_text status_key,
                   "No metrics yet.", ctx.model_info, ctx.model_map⟩],
        isDone := hasDone }
    else
      { state := { st with text := text, final_meta := newMeta },
        snaps := [], isDone := hasDone }
  else
    { state := { st with text := text, final_meta := newMeta },
      snaps := [], isDone := hasDone }

/-- The read loop: blank lines are skipped, a decode or transport failure
raises (caught by the `except` of `stream_chat`), and a truthy `done` breaks
out after capturing the whole event as the final telemetry. -/
def processStream (ctx : TurnCtx) : List StreamItem → LoopState → StreamOutcome
  | [], st => ⟨[], st, none⟩
  | .blank :: rest, st => processStream ctx rest st
  | .decodeFailure d :: _, st => ⟨[], st, some d⟩
  | .readFailure d :: _, st => ⟨[], st, some d⟩
  | .event payload now :: rest, st =>
    let out := processEvent ctx st payload now
    if out.isDone = true then ⟨out.snaps, out.state, none⟩
    else
      let tail := processStream ctx rest out.state
      ⟨out.snaps ++ tail.snaps, tail.state, tail.failure⟩

/-- The post-turn `/api/ps` metadata refresh (lines 292-301): on a truthy
probe result, merge `context_length`/`size_vram` into a copy of the entry
and rebuild the model-info text. -/
def psRefresh (model : String) (model_map : PyDict) (model_info : String)
    (ps_entry : Option PyDict) : PyDict × String :=
  match ps_entry with
  | none => (model_map, model_info)
  | some ps =>
    if ps.isEmpty then (model_map, model_info)
    else
      let entry := asDict ((dget model_map model).getD (.dict []))
      let entry :=
        if pyTruthyOpt (dget ps "context_length") = true then
          dset entry "context_length" ((dget ps "context_length").getD (.int 0))
        else entry
      let entry :=
        if pyTruthyOpt (dget ps "size_vram") = true then
          dset entry "size_vram" ((dget ps "size_vram").getD (.int 0))
        else entry
      if entry.isEmpty then (model_map, model_info)
      else
        let mm := dset model_map model (.dict entry)
        (mm, build_model_info model mm)

/-- `stream_chat`. `model` is `str | None` from the dropdown; `None` is
modelled by the falsy empty string. `start_time` is the
`time.monotonic()` reading of line 249. The request payload is built from
`request_messages` exactly on the non-no-op path; the network interaction it
triggers is the explicit `input`. -/
def stream_chat (message : String) (ui_history api_history : List ChatMessage)
    (base_url : String) (model : String) (model_map : PyDict)
    (start_time : ℚ) (input : StreamInput) (ps_entry : Option PyDict) :
    List Snapshot :=
  let clean_ui := ui_history
  let clean_api := api_history
  let model_info := build_model_info model model_map
  if pyStripStr message = "" then
    [⟨clean_ui, clean_ui, clean_api, header_text STATUS_READY, "No metrics yet.",
      model_info, model_map⟩]
  else if model = "" then
    [⟨clean_ui, clean_ui, clean_api, header_text STATUS_READY, "No metrics yet.",
      model_info, model_map⟩]
  else
    let _ := normalize_base_url base_url
    let request_messages := clean_api ++ [⟨"user", message⟩]
    let display_history := clean_ui ++ [⟨"user", message⟩, ⟨"assistant", ""⟩]
    let firstSnap : Snapshot :=
      ⟨display_history, display_history, clean_api, header_text STATUS_GENERATING,
       "No metrics yet.", model_info, model_map⟩
    match input with
    | .connectFailure detail =>
      let display := setLast display_history ⟨"assistant", "[Error] " ++ detail⟩
      [firstSnap,
       ⟨display, display, clean_api, header_text STATUS_ERROR, "No metrics yet.",
        model_info, model_map⟩]
    | .body items =>
      let out := processStream ⟨clean_api, model_info, model_map⟩ items
        ⟨"", [], start_time, 0, display_history⟩
      match out.failure with
      | some detail =>
        let display := setLast out.state.display_history
          ⟨"assistant", "[Error] " ++ detail⟩
        firstSnap :: out.snaps ++
          [⟨display, display, clean_api, header_text STATUS_ERROR, "No metrics yet.",
            model_info, model_map⟩]
      | none =>
        let metrics :=
          if out.state.final_meta.isEmpty then "No metrics returned by Ollama."
          else format_metrics out.state.final_meta
        let mi := psRefresh model model_map model_info ps_entry
        let display := setLast out.state.display_history
          ⟨"assistant", render_assistant_text out.state.text⟩
        let updated_api := request_messages ++ [⟨"assistant", out.state.text⟩]
        firstSnap :: out.snaps ++
          [⟨display, display, updated_api, header_text STATUS_READY, metrics,
            mi.2, mi.1⟩]

/-- The exception detail that aborts a turn (connection-phase failure, or
the first decode/transport failure the read loop reaches), if any. -/
def streamAbort (message : String) (ui_history api_history : List ChatMessage)
    (model : String) (model_map : PyDict) (start_time : ℚ) :
    StreamInput → Option String
  | .connectFailure d => some d
  | .body items =>
    (processStream ⟨api_history, build_model_info model model_map, model_map⟩ items
      ⟨"", [], start_time, 0, ui_history ++ [⟨"user", message⟩, ⟨"assistant", ""⟩]⟩).failure

/-- The content delta an event contributes to the accumulator. -/
def contentOf (payload : PyDict) : String :=
  let message_event := asDict (dgetD payload "message" (.dict []))
  if pyTruthyOpt (dget message_event "content") = true then
    strVal (dget message_event "content")
  else ""

/-- The payloads the read loop actually processes: blanks skipped, stopping
after a truthy `done` event or at the first failure item. -/
def processedContents : List StreamItem → List String
  | [] => []
  | .blank :: rest => processedContents rest
  | .decodeFailure _ :: _ => []
  | .readFailure _ :: _ => []
  | .event p _ :: rest =>
    contentOf p :: (if pyTruthyOpt (dget p "done") = true then [] else processedContents rest)

/-- Concatenation of a list of strings. -/
def concatAll (l : List String) : String := l.foldr (· ++ ·) ""

/-!
## Aliasing model for the frame property of `stream_chat`

Python lists are heap cells mutated in place. To state that `stream_chat`
never mutates the history lists of the caller, the list-valued heap is made
explicit: a store of list cells addressed by index, where `list(...)` /
`.copy()` / `+` allocate fresh cells and `.append` / `lst[-1] = v` mutate
the cell they are applied to. `stream_chat_store` replays exactly the list
operations `stream_chat` performs on message lists (the in-loop
`display_history[-1] = ...` assignments all hit the display cell; their net
effect is the final loop-state display). -/
abbrev Store := List (List ChatMessage)

/-- The final store of one `stream_chat` call whose `ui_history` and
`api_history` arguments are the cells `uiId` and `apiId` of `store0`. -/
def stream_chat_store (message : String) (uiId apiId : ℕ) (store0 : Store)
    (model : String) (model_map : PyDict) (start_time : ℚ)
    (input : StreamInput) : Store :=
  let ui_history := store0.getD uiId []
  let api_history := store0.getD apiId []
  let store1 := store0 ++ [ui_history]
  let store2 := store1 ++ [api_history]
  if pyStripStr message = "" then store2
  else if model = "" then store2
  else
    let reqId := store2.length
    let store3 := store2 ++ [api_history]
    let store4 := store3.set reqId (store3.getD reqId [] ++ [⟨"user", message⟩])
    let dispId := store4.length
    let store5 := store4 ++ [ui_history ++ [⟨"user", message⟩, ⟨"assistant", ""⟩]]
    match input with
    | .connectFailure detail =>
      store5.set dispId (setLast (store5.getD dispId []) ⟨"assistant", "[Error] " ++ detail⟩)
    | .body items =>
      let out := processStream ⟨api_history, build_model_info model model_map, model_map⟩
        items ⟨"", [], start_time, 0, store5.getD dispId []⟩
      let store6 := store5.set dispId out.state.display_history
      match out.failure with
      | some detail =>
        store6.set dispId (setLast (store6.getD dispId []) ⟨"assistant", "[Error] " ++ detail⟩)
      | none =>
        let store7 := store6.set dispId
          (setLast (store6.getD dispId []) ⟨"assistant", render_assistant_text out.state.text⟩)
        store7 ++ [store7.getD reqId [] ++ [⟨"assistant", out.state.text⟩]]

/-!
## Helper lemmas
-/

lemma string_append_empty (s : String) : s ++ "" = s := String.append_empty s

lemma setLast_eq : ∀ (l : List ChatMessage) (m : ChatMessage), l ≠ [] →
    setLast l m = l.dropLast ++ [m]
  | [], _, h => absurd rfl h
  | [_], _, _ => rfl
  | x :: y :: rest, m, _ => by
    show x :: setLast (y :: rest) m = _
    rw [setLast_eq (y :: rest) m (by simp)]
    simp

lemma setLast_dropLast (l : List ChatMessage) (m : ChatMessage) :
    (setLast l m).dropLast = l.dropLast := by
  by_cases h : l = []
  · subst h; rfl
  · rw [setLast_eq l m h, List.dropLast_concat]

lemma setLast_length (l : List ChatMessage) (m : ChatMessage) :
    (setLast l m).length = l.length := by
  by_cases h : l = []
  · subst h; rfl
  · rw [setLast_eq l m h]
    have hpos : 0 < l.length := List.length_pos.mpr h
    simp [List.length_dropLast]
    omega

lemma setLast_ne_nil (l : List ChatMessage) (m : ChatMessage) (h : l ≠ []) :
    setLast l m ≠ [] := by
  rw [setLast_eq l m h]
  simp

lemma setLast_getLast? (l : List ChatMessage) (m : ChatMessage) (h : l ≠ []) :
    (setLast l m).getLast? = some m := by
  rw [setLast_eq l m h]
  simp

lemma processEvent_isDone (ctx : TurnCtx) (st : LoopState) (p : PyDict) (now : ℚ) :
    (processEvent ctx st p now).isDone = pyTruthyOpt (dget p "done") := by
  simp only [processEvent]
  split_ifs <;> rfl

lemma processEvent_text (ctx : TurnCtx) (st : LoopState) (p : PyDict) (now : ℚ) :
    (processEvent ctx st p now).state.text = st.text ++ contentOf p := by
  simp only [processEvent, contentOf]
  split_ifs <;> simp [string_append_empty]

lemma processEvent_display_dropLast (ctx : TurnCtx) (st : LoopState) (p : PyDict) (now : ℚ) :
    (processEvent ctx st p now).state.display_history.dropLast
      = st.display_history.dropLast := by
  simp only [processEvent]
  split_ifs <;> simp [setLast_dropLast]

lemma processEvent_display_length (ctx : TurnCtx) (st : LoopState) (p : PyDict) (now : ℚ) :
    (processEvent ctx st p now).state.display_history.length
      = st.display_history.length := by
  simp only [processEvent]
  split_ifs <;> simp [setLast_length]

lemma processEvent_snaps_api (ctx : TurnCtx) (st : LoopState) (p : PyDict) (now : ℚ)
    (s : Snapshot) (h : s ∈ (processEvent ctx st p now).snaps) :
    s.apiHistory = ctx.clean_api := by
  simp only [processEvent] at h
  split_ifs at h <;>
    simp only [List.mem_singleton, List.not_mem_nil] at h <;>
    (subst h; rfl)

lemma processEvent_snaps_headline (ctx : TurnCtx) (st : LoopState) (p : PyDict) (now : ℚ)
    (s : Snapshot) (h : s ∈ (processEvent ctx st p now).snaps) :
    s.headline = header_text (event_status_key (asDict (dgetD p "message" (.dict [])))) := by
  simp only [processEvent] at h
  split_ifs at h <;>
    simp only [List.mem_singleton, List.not_mem_nil] at h <;>
    (subst h; rfl)

lemma processStream_text (ctx : TurnCtx) :
    ∀ (items : List StreamItem) (st : LoopState),
      (processStream ctx items st).state.text
        = st.text ++ concatAll (processedContents items)
  | [], st => by simp [processStream, processedContents, concatAll, string_append_empty]
  | .blank :: rest, st => by
    simpa [processStream, processedContents] using processStream_text ctx rest st
  | .decodeFailure d :: _, st => by
    simp [processStream, processedContents, concatAll, string_append_empty]
  | .readFailure d :: _, st => by
    simp [processStream, processedContents, concatAll, string_append_empty]
  | .event p now :: rest, st => by
    have hd := processEvent_isDone ctx st p now
    simp only [processStream, processedContents]
    rw [hd]
    by_cases hdone : pyTruthyOpt (dget p "done") = true
    · simp only [hdone, if_true, if_pos]
      simp [concatAll, processEvent_text, string_append_empty]
    · simp only [hdone, if_false, if_neg, Bool.not_eq_true]
      rw [processStream_text ctx rest _]
      rw [processEvent_text]
      simp [concatAll, String.append_assoc]

lemma processStream_display_dropLast (ctx : TurnCtx) :
    ∀ (items : List StreamItem) (st : LoopState),
      (processStream ctx items st).state.display_history.dropLast
        = st.display_history.dropLast
  | [], st => rfl
  | .blank :: rest, st => processStream_display_dropLast ctx rest st
  | .decodeFailure d :: _, st => rfl
  | .readFailure d :: _, st => rfl
  | .event p now :: rest, st => by
    simp only [processStream]
    split
    · exact processEvent_display_dropLast ctx st p now
    · show (processStream ctx rest _).state.display_history.dropLast = _
      rw [processStream_display_dropLast ctx rest, processEvent_display_dropLast]

lemma processStream_display_length (ctx : TurnCtx) :
    ∀ (items : List StreamItem) (st : LoopState),
      (processStream ctx items st).state.display_history.length
        = st.display_history.length
  | [], st => rfl
  | .blank :: rest, st => processStream_display_length ctx rest st
  | .decodeFailure d :: _, st => rfl
  | .readFailure d :: _, st => rfl
  | .event p now :: rest, st => by
    simp only [processStream]
    split
    · exact processEvent_display_length ctx st p now
    · show (processStream ctx rest _).state.display_history.length = _
      rw [processStream_display_length ctx rest, processEvent_display_length]

lemma processStream_snaps_api (ctx : TurnCtx) :
    ∀ (items : List StreamItem) (st : LoopState) (s : Snapshot),
      s ∈ (processStream ctx items st).snaps → s.apiHistory = ctx.clean_api
  | [], st, s, h => by simp [processStream] at h
  | .blank :: rest, st, s, h => processStream_snaps_api ctx rest st s h
  | .decodeFailure d :: _, st, s, h => by simp [processStream] at h
  | .readFailure d :: _, st, s, h => by simp [processStream] at h
  | .event p now :: rest, st, s, h => by
    simp only [processStream] at h
    split at h
    · exact processEvent_snaps_api ctx st p now s h
    · simp only [List.mem_append] at h
      rcases h with h | h
      · exact processEvent_snaps_api ctx st p now s h
      · exact processStream_snaps_api ctx rest _ s h

lemma string_empty_append (s : String) : "" ++ s = s := by
  cases s with
  | mk data => show String.mk ([] ++ data) = String.mk data; simp

lemma getD_append_lt : ∀ (l l2 : Store) (i : ℕ), i < l.length →
    (l ++ l2).getD i [] = l.getD i []
  | [], _, i, h => by simp at h
  | _ :: _, _, 0, _ => rfl
  | _ :: t, l2, i + 1, h => getD_append_lt t l2 i (Nat.succ_lt_succ_iff.mp h)

lemma getD_set_ne : ∀ (l : Store) (j : ℕ) (x : List ChatMessage) (i : ℕ), i ≠ j →
    (l.set j x).getD i [] = l.getD i []
  | [], _, _, _, _ => rfl
  | _ :: _, 0, _, 0, h => absurd rfl h
  | _ :: _, 0, _, _ + 1, _ => rfl
  | _ :: _, _ + 1, _, 0, _ => rfl
  | _ :: t, j + 1, x, i + 1, h =>
    getD_set_ne t j x i (fun e => h (by rw [e]))

lemma get?_append_len : ∀ (l l2 : List ChatMessage), (l ++ l2).get? l.length = l2.get? 0
  | [], _ => rfl
  | _ :: t, l2 => get?_append_len t l2

lemma replaceCRLF_id : ∀ (l : List Char), '\r' ∉ l → replaceCRLF l = l
  | [], _ => rfl
  | [_], _ => rfl
  | c :: d :: rest, h => by
    have hc : c ≠ '\r' := fun e => h (by simp [e])
    simp only [replaceCRLF, if_neg (fun hand => hc (And.left hand))]
    exact congrArg (List.cons c)
      (replaceCRLF_id (d :: rest) (fun hm => h (List.mem_cons_of_mem c hm)))

lemma replaceCR_id (l : List Char) (h : '\r' ∉ l) : replaceCR l = l := by
  induction l with
  | nil => rfl
  | cons c rest ih =>
    have hc : c ≠ '\r' := fun e => h (by simp [e])
    simp only [replaceCR, List.map_cons, if_neg hc]
    exact congrArg (List.cons c) (ih (fun hm => h (List.mem_cons_of_mem c hm)))

lemma dropOpenBracket_none (m : List Char) (h : '[' ∉ m) : dropOpenBracket m = none := by
  match m with
  | [] => rfl
  | c :: r =>
    have hc : c ≠ '[' := fun e => h (by simp [e])
    by_cases hb : c = '\\'
    · match r with
      | [] => simp [dropOpenBracket, hb]
      | c2 :: r2 =>
        have hc2 : c2 ≠ '[' := fun e => h (by simp [e])
        simp [dropOpenBracket, hb, hc2]
    · simp [dropOpenBracket, hb, hc]

lemma tryOpen_none (l : List Char) (h : '[' ∉ l) : tryOpen l = none := by
  have hsub : '[' ∉ l.dropWhile isSpacePy :=
    fun hm => h ((List.dropWhile_sublist isSpacePy).subset hm)
  unfold tryOpen
  rw [dropOpenBracket_none _ hsub]

lemma inlineSubAux_id : ∀ (fuel : ℕ) (l : List Char), '[' ∉ l → inlineSubAux fuel l = l
  | 0, _, _ => rfl
  | _ + 1, [], _ => rfl
  | fuel + 1, c :: rest, h => by
    have hc : c ≠ '[' := fun e => h (by simp [e])
    simp only [inlineSubAux, if_neg hc]
    exact congrArg (List.cons c)
      (inlineSubAux_id fuel rest (fun hm => h (List.mem_cons_of_mem c hm)))

lemma blockAttempt_none (atStart : Bool) (c : Char) (rest : List Char)
    (h : '[' ∉ c :: rest) : blockAttempt atStart c rest = none := by
  have h1 : tryOpen (c :: rest) = none := tryOpen_none _ h
  have h2 : tryOpen rest = none := tryOpen_none _ (fun hm => h (List.mem_cons_of_mem c hm))
  unfold blockAttempt
  split_ifs <;> simp [h1, h2]

lemma blockSubAux_id : ∀ (fuel : ℕ) (b : Bool) (l : List Char), '[' ∉ l →
    blockSubAux fuel b l = l
  | 0, _, _, _ => rfl
  | _ + 1, _, [], _ => rfl
  | fuel + 1, b, c :: rest, h => by
    simp only [blockSubAux, blockAttempt_none b c rest h]
    exact congrArg (List.cons c)
      (blockSubAux_id fuel (c == '\n') rest (fun hm => h (List.mem_cons_of_mem c hm)))

/-!
## Claim theorems
-/

/-- C3: for every sequence of stream events, the accumulated assistant text
at the end of the read loop equals the concatenation of the content deltas
of the processed events, for every initial emission state (`t0`, `len0`) —
so independently of which events the Throttled Emission Policy chose to
emit, nothing is dropped, truncated or reordered. -/
theorem C3_accumulator_concat (ctx : TurnCtx) (items : List StreamItem)
    (meta0 : PyDict) (t0 : ℚ) (len0 : ℕ) (d0 : List ChatMessage) :
    (processStream ctx items ⟨"", meta0, t0, len0, d0⟩).state.text
      = concatAll (processedContents items) := by
  rw [processStream_text]
  exact string_empty_append _

/-- C7: an empty/whitespace-only message, or no selected model, yields a
single terminal Ready snapshot with both histories passed through unchanged
(no request is built on this path: the request construction of
`stream_chat` happens only on the branch this theorem excludes). -/
theorem C7_noop_preconditions (message : String) (ui api : List ChatMessage)
    (base_url model : String) (mm : PyDict) (t0 : ℚ) (input : StreamInput)
    (ps : Option PyDict)
    (h : pyStripStr message = "" ∨ model = "") :
    stream_chat message ui api base_url model mm t0 input ps =
      [⟨ui, ui, api, header_text STATUS_READY, "No metrics yet.",
        build_model_info model mm, mm⟩] := by
  rcases h with h | h
  · simp only [stream_chat, if_pos h]
  · by_cases h2 : pyStripStr message = ""
    · simp only [stream_chat, if_pos h2]
    · simp only [stream_chat, if_neg h2, if_pos h]

/-- C7 witness: a whitespace-only message is a no-op turn. -/
theorem C7_noop_preconditions_witness :
    stream_chat "  " [⟨"user", "old"⟩] [] "" "m" [] 0 (.body []) none =
      [⟨[⟨"user", "old"⟩], [⟨"user", "old"⟩], [], header_text STATUS_READY,
        "No metrics yet.", build_model_info "m" [], []⟩] :=
  C7_noop_preconditions "  " [⟨"user", "old"⟩] [] "" "m" [] 0 (.body []) none
    (Or.inl (by decide))

/-- C8: `compute_speed` returns 0 whenever the count is falsy (`None` or 0)
or the duration is absent or not positive, and otherwise returns
`count / (duration_ns / 1e9)`; in particular
`compute_speed(100, 2_000_000_000) = 50.0`. -/
theorem C8_compute_speed (count duration_ns : Option PyVal) (c d : ℤ) :
    ((count = none ∨ count = some (.int 0) ∨ duration_ns = none ∨
        (duration_ns = some (.int d) ∧ d ≤ 0)) →
      compute_speed count duration_ns = 0)
    ∧ (c ≠ 0 → 0 < d →
        compute_speed (some (.int c)) (some (.int d))
          = (c : ℚ) / ((d : ℚ) / 1000000000))
    ∧ compute_speed (some (.int 100)) (some (.int 2000000000)) = 50 := by
  refine ⟨?_, ?_, by norm_num [compute_speed, ns_to_s, pyTruthy, pyTruthyOpt, pyNum]⟩
  · intro h
    rcases h with h | h | h | ⟨h, hd⟩
    · subst h; simp [compute_speed, pyTruthyOpt]
    · subst h; simp [compute_speed, pyTruthyOpt, pyTruthy]
    · subst h; simp [compute_speed, ns_to_s]
    · subst h
      by_cases h0 : d = 0
      · subst h0; simp [compute_speed, ns_to_s, pyTruthy]
      · have hbne : (d != 0) = true := by simp [bne_iff_ne]; exact h0
        have hle : (d : ℚ) / 1000000000 ≤ 0 :=
          div_nonpos_iff.mpr (Or.inr ⟨by exact_mod_cast hd, by norm_num⟩)
        have hns : ns_to_s (some (.int d)) = (d : ℚ) / 1000000000 := by
          simp [ns_to_s, pyTruthy, pyNum, hbne]
        simp only [compute_speed, hns]
        rw [if_pos (Or.inr hle)]
  · intro hc hd
    have hdq : (0 : ℚ) < (d : ℚ) := by exact_mod_cast hd
    have hpos : (0 : ℚ) < (d : ℚ) / 1000000000 := div_pos hdq (by norm_num)
    have hdne : (d != 0) = true := by simp [bne_iff_ne]; omega
    have hcne : (c != 0) = true := by simp [bne_iff_ne]; exact hc
    have hns : ns_to_s (some (.int d)) = (d : ℚ) / 1000000000 := by
      simp [ns_to_s, pyTruthy, pyNum, hdne]
    have hto : pyTruthyOpt (some (.int c)) = true := by
      simp [pyTruthyOpt, pyTruthy, hcne]
    simp only [compute_speed, hns, hto]
    rw [if_neg]
    · rfl
    · rintro (habs | habs)
      · simp at habs
      · exact absurd habs (not_le.mpr hpos)

/-- C8 witness: concrete evaluations through the theorem. -/
theorem C8_compute_speed_witness :
    compute_speed none (some (.int 5)) = 0
    ∧ compute_speed (some (.int 100)) (some (.int 2000000000)) = 50 :=
  ⟨(C8_compute_speed none (some (.int 5)) 1 1).1 (Or.inl rfl),
   (C8_compute_speed none none 1 1).2.2⟩

/-- C9 counterexample: the empty string is a member of `["x", ""]`, yet
`choose_model` does not return it (Python truthiness of the preferred name
is required by the code before membership is even consulted). -/
theorem C9_choose_model_counterexample :
    "" ∈ ["x", ""] ∧ choose_model ["x", ""] (some "") ≠ some "" := by
  refine ⟨by simp, by decide⟩

/-- C9 amended: for a non-empty name list and a truthy (non-empty) preferred
name, `choose_model` returns the preferred name exactly when it is a member
of the list and the first element otherwise; a `None` or empty preferred
name always yields the first element. -/
theorem C9_choose_model_amended (names : List String) (p : String)
    (_hne : names ≠ []) (hp : p ≠ "") :
    (choose_model names (some p) = some p ↔ p ∈ names)
    ∧ (p ∉ names → choose_model names (some p) = names.head?)
    ∧ choose_model names none = names.head?
    ∧ choose_model names (some "") = names.head? := by
  refine ⟨⟨?_, ?_⟩, ?_, rfl, by simp [choose_model]⟩
  · intro h
    by_cases hmem : p ∈ names
    · exact hmem
    · simp only [choose_model,
        if_neg (fun hand : p ≠ "" ∧ p ∈ names => hmem hand.2)] at h
      exact absurd (List.mem_of_mem_head? h) hmem
  · intro hmem
    simp [choose_model, hp, hmem]
  · intro hmem
    simp [choose_model, hmem]

/-- C9 witness: concrete instance of the amended statement. -/
theorem C9_choose_model_amended_witness :
    (choose_model ["a", "b"] (some "b") = some "b" ↔ "b" ∈ ["a", "b"])
    ∧ ("b" ∉ ["a", "b"] → choose_model ["a", "b"] (some "b") = ["a", "b"].head?)
    ∧ choose_model ["a", "b"] none = ["a", "b"].head?
    ∧ choose_model ["a", "b"] (some "") = ["a", "b"].head? :=
  C9_choose_model_amended ["a", "b"] "b" (by decide) (by decide)

/-- C6 counterexample: the Math Notation Normalizer is not idempotent. On
`"[[a=b]]"` the first pass rewrites the inner span, producing
`"[$$a=b$$]"`, and a second pass then matches the remaining outer bracket
pair (its interior now contains `=`), producing `"$$$$a=b$$$$"`. -/
theorem C6_normalizer_not_idempotent :
    render_assistant_text (render_assistant_text "[[a=b]]")
      ≠ render_assistant_text "[[a=b]]" := by decide

/-- C6 amended: the normalizer is not idempotent in general (nested bracket
forms can be rewritten again by a second pass); however any text containing
no `[` character and no carriage return — in particular canonical
double-delimiter text with no bracket form — is returned unchanged. -/
theorem C6_normalizer_amended (s : String)
    (h : ∀ c ∈ s.data, c ≠ '[' ∧ c ≠ '\r') :
    render_assistant_text s = s := by
  have hr : '\r' ∉ s.data := fun hm => (h _ hm).2 rfl
  have hb : '[' ∉ s.data := fun hm => (h _ hm).1 rfl
  show String.mk (inlineSub (blockSub (replaceCR (replaceCRLF s.data)))) = s
  rw [replaceCRLF_id s.data hr, replaceCR_id s.data hr]
  show String.mk (inlineSub (blockSubAux s.data.length true s.data)) = s
  rw [blockSubAux_id _ _ _ hb]
  show String.mk (inlineSubAux s.data.length s.data) = s
  rw [inlineSubAux_id _ _ hb]

/-- C6 witness: canonical text with no bracket form is left unchanged. -/
theorem C6_normalizer_amended_witness :
    render_assistant_text "The answer is $$x=2$$.\n" = "The answer is $$x=2$$.\n" :=
  C6_normalizer_amended "The answer is $$x=2$$.\n" (by decide)

/-- C5 counterexample: an event carrying both a thinking delta and a content
delta is assigned the Thinking status by the code (`status_key` tests only
the thinking delta), not Generating as the claim demands; the emitted
snapshot for such an event carries the Thinking headline. The 24-character
content delta forces the throttled emission to fire. -/
theorem C5_status_counterexample :
    (processEvent ⟨[], "", []⟩ ⟨"", [], 0, 0, [⟨"user", "hi"⟩, ⟨"assistant", ""⟩]⟩
        [("message", PyVal.dict
          [("thinking", PyVal.str "t"),
           ("content", PyVal.str "cccccccccccccccccccccccc")])] 0).snaps.map
        Snapshot.headline
      = [header_text STATUS_THINKING]
    ∧ header_text STATUS_THINKING ≠ header_text STATUS_GENERATING :=
  ⟨rfl, by decide⟩

/-- C5 amended: the status assigned while processing an event is Thinking
exactly when the event carries a (truthy) thinking delta — even when a
content delta is also present — and Generating otherwise; every snapshot the
event emits carries the headline of that status. -/
theorem C5_status_amended (me : PyDict) (ctx : TurnCtx) (st : LoopState)
    (p : PyDict) (now : ℚ) :
    (event_status_key me = STATUS_THINKING
      ↔ pyTruthyOpt (dget me "thinking") = true)
    ∧ (event_status_key me = STATUS_GENERATING
      ↔ pyTruthyOpt (dget me "thinking") = false)
    ∧ (∀ s ∈ (processEvent ctx st p now).snaps,
        s.headline = header_text (event_status_key (asDict (dgetD p "message" (.dict []))))) := by
  refine ⟨?_, ?_, fun s hs => processEvent_snaps_headline ctx st p now s hs⟩
  · by_cases hb : pyTruthyOpt (dget me "thinking") = true
    · simp [event_status_key, hb]
    · simp only [event_status_key, if_neg hb]
      constructor
      · intro h
        exact absurd h (by decide)
      · intro h
        exact absurd h hb
  · by_cases hb : pyTruthyOpt (dget me "thinking") = true
    · simp only [event_status_key, hb, if_pos rfl]
      constructor
      · intro h
        exact absurd h (by decide)
      · intro h
        exact absurd h (by decide)
    · simp only [event_status_key, if_neg hb]
      simp only [Bool.not_eq_true] at hb
      simp [hb]

/-- C5 witness: the snapshot emitted for a concrete both-deltas event
carries the headline of the assigned status. -/
theorem C5_status_amended_witness :
    (⟨[⟨"user", "hi"⟩, ⟨"assistant", "cccccccccccccccccccccccc"⟩],
      [⟨"user", "hi"⟩, ⟨"assistant", "cccccccccccccccccccccccc"⟩],
      [], header_text STATUS_THINKING, "No metrics yet.", "", []⟩ : Snapshot).headline
      = header_text (event_status_key (asDict (dgetD
          [("message", PyVal.dict
            [("thinking", PyVal.str "t"),
             ("content", PyVal.str "cccccccccccccccccccccccc")])] "message" (.dict [])))) :=
  (C5_status_amended [] ⟨[], "", []⟩
      ⟨"", [], 0, 0, [⟨"user", "hi"⟩, ⟨"assistant", ""⟩]⟩
      [("message", PyVal.dict
        [("thinking", PyVal.str "t"),
         ("content", PyVal.str "cccccccccccccccccccccccc")])] 0).2.2
    _ (by
      have e : (processEvent ⟨[], "", []⟩
          ⟨"", [], 0, 0, [⟨"user", "hi"⟩, ⟨"assistant", ""⟩]⟩
          [("message", PyVal.dict
            [("thinking", PyVal.str "t"),
             ("content", PyVal.str "cccccccccccccccccccccccc")])] 0).snaps
          = [⟨[⟨"user", "hi"⟩, ⟨"assistant", "cccccccccccccccccccccccc"⟩],
              [⟨"user", "hi"⟩, ⟨"assistant", "cccccccccccccccccccccccc"⟩],
              [], header_text STATUS_THINKING, "No metrics yet.", "", []⟩] := rfl
      rw [e]
      exact List.mem_singleton_self _)

lemma getLast?_pair {α : Type} (a b : α) : [a, b].getLast? = some b := rfl

lemma dropLast_append_pair (l : List ChatMessage) (x y : ChatMessage) :
    (l ++ [x, y]).dropLast = l ++ [x] := by
  rw [show l ++ [x, y] = (l ++ [x]) ++ [y] by simp]
  exact List.dropLast_concat ..

lemma header_text_error_ne_ready : header_text STATUS_ERROR ≠ header_text STATUS_READY := by
  decide

/-- C1: every streaming turn that reaches the terminal Ready snapshot does so
with some accumulated assistant text `t`: the final snapshot's display
history ends with an assistant message holding the Math Notation Normalizer
applied to `t`, and its replay history is the input replay history followed
by the user message and the raw (un-normalized) assistant message `t`. -/
theorem C1_ready_final_histories (message base_url model : String)
    (ui api : List ChatMessage) (mm : PyDict) (t0 : ℚ) (input : StreamInput)
    (ps : Option PyDict) (s : Snapshot)
    (hmsg : pyStripStr message ≠ "") (hmodel : model ≠ "")
    (hlast : (stream_chat message ui api base_url model mm t0 input ps).getLast? = some s)
    (hready : s.headline = header_text STATUS_READY) :
    ∃ t, s.apiHistory = api ++ [⟨"user", message⟩, ⟨"assistant", t⟩]
      ∧ s.chatbot.getLast? = some ⟨"assistant", render_assistant_text t⟩
      ∧ s.uiHistory.getLast? = some ⟨"assistant", render_assistant_text t⟩ := by
  simp only [stream_chat] at hlast
  rw [if_neg hmsg, if_neg hmodel] at hlast
  cases input with
  | connectFailure detail =>
    rw [getLast?_pair] at hlast
    have hsb := (Option.some.inj hlast).symm
    rw [hsb] at hready
    have h2 : header_text STATUS_ERROR = header_text STATUS_READY := hready
    exact absurd h2 header_text_error_ne_ready
  | body items =>
    dsimp only at hlast
    split at hlast
    · -- the read loop aborted: the terminal snapshot is the Error one
      rw [List.getLast?_concat] at hlast
      have hsb := (Option.some.inj hlast).symm
      rw [hsb] at hready
      have h2 : header_text STATUS_ERROR = header_text STATUS_READY := hready
      exact absurd h2 header_text_error_ne_ready
    · -- the read loop finished: the terminal snapshot is the Ready one
      rw [List.getLast?_concat] at hlast
      have hsb := (Option.some.inj hlast).symm
      subst hsb
      refine ⟨(processStream ⟨api, build_model_info model mm, mm⟩ items
          ⟨"", [], t0, 0, ui ++ [⟨"user", message⟩, ⟨"assistant", ""⟩]⟩).state.text,
        ?_, ?_, ?_⟩
      · show (api ++ [⟨"user", message⟩]) ++ [⟨"assistant", _⟩] = _
        simp
      · refine setLast_getLast? _ _ ?_
        intro he
        have hlen := congrArg List.length he
        rw [processStream_display_length] at hlen
        simp at hlen
      · refine setLast_getLast? _ _ ?_
        intro he
        have hlen := congrArg List.length he
        rw [processStream_display_length] at hlen
        simp at hlen


/-- C1 witness: a concrete successful turn (one 24-character content delta,
then end of stream) ends in a Ready snapshot whose replay history carries
the raw accumulated text and whose display history carries the normalized
text. -/
theorem C1_ready_final_histories_witness :
    ∃ t, (⟨[⟨"user", "hi"⟩, ⟨"assistant", "cccccccccccccccccccccccc"⟩],
          [⟨"user", "hi"⟩, ⟨"assistant", "cccccccccccccccccccccccc"⟩],
          [⟨"user", "hi"⟩, ⟨"assistant", "cccccccccccccccccccccccc"⟩],
          header_text STATUS_READY, "No metrics returned by Ollama.",
          "### Selected Model\n`m` metadata unavailable.", []⟩ : Snapshot).apiHistory
        = [⟨"user", "hi"⟩, ⟨"assistant", t⟩]
      ∧ (⟨[⟨"user", "hi"⟩, ⟨"assistant", "cccccccccccccccccccccccc"⟩],
          [⟨"user", "hi"⟩, ⟨"assistant", "cccccccccccccccccccccccc"⟩],
          [⟨"user", "hi"⟩, ⟨"assistant", "cccccccccccccccccccccccc"⟩],
          header_text STATUS_READY, "No metrics returned by Ollama.",
          "### Selected Model\n`m` metadata unavailable.", []⟩ : Snapshot).chatbot.getLast?
        = some ⟨"assistant", render_assistant_text t⟩
      ∧ (⟨[⟨"user", "hi"⟩, ⟨"assistant", "cccccccccccccccccccccccc"⟩],
          [⟨"user", "hi"⟩, ⟨"assistant", "cccccccccccccccccccccccc"⟩],
          [⟨"user", "hi"⟩, ⟨"assistant", "cccccccccccccccccccccccc"⟩],
          header_text STATUS_READY, "No metrics returned by Ollama.",
          "### Selected Model\n`m` metadata unavailable.", []⟩ : Snapshot).uiHistory.getLast?
        = some ⟨"assistant", render_assistant_text t⟩ :=
  C1_ready_final_histories "hi" "" "m" [] [] [] 0
    (.body [.event [("message",
      PyVal.dict [("content", PyVal.str "cccccccccccccccccccccccc")])] 0]) none _
    (by decide) (by decide) rfl rfl


lemma processStream_display_ne_nil (ctx : TurnCtx) (items : List StreamItem)
    (st : LoopState) (h : st.display_history ≠ []) :
    (processStream ctx items st).state.display_history ≠ [] := by
  intro he
  have hl := processStream_display_length ctx items st
  rw [he] at hl
  exact h (List.length_eq_zero.mp hl.symm)

lemma setLast_turn_display (ctx : TurnCtx) (items : List StreamItem)
    (ui : List ChatMessage) (message : String) (t0 : ℚ) (e : ChatMessage) :
    setLast (processStream ctx items
        ⟨"", [], t0, 0, ui ++ [⟨"user", message⟩, ⟨"assistant", ""⟩]⟩).state.display_history e
      = ui ++ ([⟨"user", message⟩] ++ [e]) := by
  have hd := processStream_display_dropLast ctx items
    ⟨"", [], t0, 0, ui ++ [⟨"user", message⟩, ⟨"assistant", ""⟩]⟩
  have hne : (processStream ctx items
      ⟨"", [], t0, 0, ui ++ [⟨"user", message⟩, ⟨"assistant", ""⟩]⟩).state.display_history
      ≠ [] :=
    processStream_display_ne_nil ctx items _ (by simp)
  rw [setLast_eq _ _ hne, hd]
  show (ui ++ [⟨"user", message⟩, ⟨"assistant", ""⟩] : List ChatMessage).dropLast ++ _ = _
  rw [dropLast_append_pair, List.append_assoc]

/-- C2: every turn aborted by a decode failure or a transport failure (at
connect time or mid-stream) terminates in an Error snapshot: the trailing
assistant message of its display history is the error annotation holding the
failure detail, its replay history equals the input replay history (the
turn is excluded from replay), and the user message of the failed turn is
still present in the display history at its original position. -/
theorem C2_error_turn (message base_url model : String)
    (ui api : List ChatMessage) (mm : PyDict) (t0 : ℚ) (input : StreamInput)
    (ps : Option PyDict) (detail : String)
    (hmsg : pyStripStr message ≠ "") (hmodel : model ≠ "")
    (hfail : streamAbort message ui api model mm t0 input = some detail) :
    ∃ s, (stream_chat message ui api base_url model mm t0 input ps).getLast? = some s
      ∧ s.headline = header_text STATUS_ERROR
      ∧ s.chatbot.getLast? = some ⟨"assistant", "[Error] " ++ detail⟩
      ∧ s.apiHistory = api
      ∧ s.chatbot.get? ui.length = some ⟨"user", message⟩ := by
  cases input with
  | connectFailure d =>
    have hd : d = detail := Option.some.inj hfail
    subst hd
    refine ⟨⟨setLast (ui ++ [⟨"user", message⟩, ⟨"assistant", ""⟩])
        ⟨"assistant", "[Error] " ++ d⟩,
        setLast (ui ++ [⟨"user", message⟩, ⟨"assistant", ""⟩])
        ⟨"assistant", "[Error] " ++ d⟩,
        api, header_text STATUS_ERROR, "No metrics yet.",
        build_model_info model mm, mm⟩, ?_, rfl, ?_, rfl, ?_⟩
    · simp only [stream_chat]
      rw [if_neg hmsg, if_neg hmodel]
      exact getLast?_pair _ _
    · exact setLast_getLast? _ _ (by simp)
    · rw [setLast_eq _ _ (by simp), dropLast_append_pair, List.append_assoc,
        get?_append_len]
      rfl
  | body items =>
    have hfail2 := hfail
    simp only [streamAbort] at hfail2
    refine ⟨⟨setLast (processStream ⟨api, build_model_info model mm, mm⟩ items
        ⟨"", [], t0, 0, ui ++ [⟨"user", message⟩, ⟨"assistant", ""⟩]⟩).state.display_history
        ⟨"assistant", "[Error] " ++ detail⟩,
        setLast (processStream ⟨api, build_model_info model mm, mm⟩ items
        ⟨"", [], t0, 0, ui ++ [⟨"user", message⟩, ⟨"assistant", ""⟩]⟩).state.display_history
        ⟨"assistant", "[Error] " ++ detail⟩,
        api, header_text STATUS_ERROR, "No metrics yet.",
        build_model_info model mm, mm⟩, ?_, rfl, ?_, rfl, ?_⟩
    · simp only [stream_chat]
      rw [if_neg hmsg, if_neg hmodel]
      split
      · next hsome =>
        rw [hfail2] at hsome
        have hd := Option.some.inj hsome
        subst hd
        exact List.getLast?_concat _
      · next hnone =>
        rw [hfail2] at hnone
        exact absurd hnone (by simp)
    · exact setLast_getLast? _ _
        (processStream_display_ne_nil _ items _ (by simp))
    · rw [setLast_turn_display, get?_append_len]
      rfl

/-- C2 witness: a concrete turn aborted by a connection failure. -/
theorem C2_error_turn_witness :
    ∃ s, (stream_chat "hi" [] [⟨"user", "old"⟩, ⟨"assistant", "prev"⟩] "" "m" [] 0
        (.connectFailure "refused") none).getLast? = some s
      ∧ s.headline = header_text STATUS_ERROR
      ∧ s.chatbot.getLast? = some ⟨"assistant", "[Error] " ++ "refused"⟩
      ∧ s.apiHistory = [⟨"user", "old"⟩, ⟨"assistant", "prev"⟩]
      ∧ s.chatbot.get? (List.length ([] : List ChatMessage)) = some ⟨"user", "hi"⟩ :=
  C2_error_turn "hi" "" "m" [] [⟨"user", "old"⟩, ⟨"assistant", "prev"⟩] [] 0
    (.connectFailure "refused") none "refused" (by decide) (by decide) rfl

/-- C4: every non-terminal snapshot a turn yields carries the replay history
that was passed in; the new user message and the in-progress assistant
message enter the replay history only in the terminal Ready snapshot. -/
theorem C4_intermediate_replay_unchanged (message base_url model : String)
    (ui api : List ChatMessage) (mm : PyDict) (t0 : ℚ) (input : StreamInput)
    (ps : Option PyDict) (s : Snapshot)
    (h : s ∈ (stream_chat message ui api base_url model mm t0 input ps).dropLast) :
    s.apiHistory = api := by
  by_cases h1 : pyStripStr message = ""
  · simp only [stream_chat, if_pos h1] at h
    simp at h
  · by_cases h2 : model = ""
    · simp only [stream_chat, if_neg h1, if_pos h2] at h
      simp at h
    · simp only [stream_chat, if_neg h1, if_neg h2] at h
      cases input with
      | connectFailure detail =>
        simp only [List.dropLast, List.mem_singleton] at h
        subst h
        rfl
      | body items =>
        dsimp only at h
        split at h
        · rw [List.dropLast_concat] at h
          rcases List.mem_cons.mp h with h | h
          · subst h
            rfl
          · exact processStream_snaps_api
              ⟨api, build_model_info model mm, mm⟩ items _ s h
        · rw [List.dropLast_concat] at h
          rcases List.mem_cons.mp h with h | h
          · subst h
            rfl
          · exact processStream_snaps_api
              ⟨api, build_model_info model mm, mm⟩ items _ s h

/-- C4 witness: the intermediate snapshot of a concrete turn carries the
input replay history. -/
theorem C4_intermediate_replay_unchanged_witness :
    (⟨[⟨"user", "hi"⟩, ⟨"assistant", ""⟩], [⟨"user", "hi"⟩, ⟨"assistant", ""⟩],
      [⟨"user", "old"⟩], header_text STATUS_GENERATING, "No metrics yet.",
      build_model_info "m" [], []⟩ : Snapshot).apiHistory = [⟨"user", "old"⟩] :=
  C4_intermediate_replay_unchanged "hi" "" "m" [] [⟨"user", "old"⟩] [] 0
    (.body []) none _
    (by
      have e : (stream_chat "hi" [] [⟨"user", "old"⟩] "" "m" [] 0
          (.body []) none).dropLast
          = [⟨[⟨"user", "hi"⟩, ⟨"assistant", ""⟩], [⟨"user", "hi"⟩, ⟨"assistant", ""⟩],
              [⟨"user", "old"⟩], header_text STATUS_GENERATING, "No metrics yet.",
              build_model_info "m" [], []⟩] := rfl
      rw [e]
      exact List.mem_singleton_self _)

/-- C10: `stream_chat` never mutates the history lists of the caller: in the
store model, where list copies allocate fresh cells and in-place list
operations mutate the cell they are applied to, every cell of the initial
store — in particular the `ui_history` and `api_history` cells — holds the
same messages after the turn as before it, on every path (no-op, success,
and error). -/
theorem C10_frame_histories (message model : String) (mm : PyDict) (t0 : ℚ)
    (input : StreamInput) (uiId apiId : ℕ) (store0 : Store) (i : ℕ)
    (h : i < store0.length) :
    (stream_chat_store message uiId apiId store0 model mm t0 input).getD i []
      = store0.getD i [] := by
  simp only [stream_chat_store]
  by_cases hm : pyStripStr message = ""
  · rw [if_pos hm, getD_append_lt _ _ _ (by simp; omega), getD_append_lt _ _ _ h]
  · rw [if_neg hm]
    by_cases hmo : model = ""
    · rw [if_pos hmo, getD_append_lt _ _ _ (by simp; omega), getD_append_lt _ _ _ h]
    · rw [if_neg hmo]
      cases input with
      | connectFailure detail =>
        rw [getD_set_ne _ _ _ _ (by simp [List.length_set]; omega),
          getD_append_lt _ _ _ (by simp [List.length_set]; omega),
          getD_set_ne _ _ _ _ (by simp; omega),
          getD_append_lt _ _ _ (by simp; omega),
          getD_append_lt _ _ _ (by simp; omega),
          getD_append_lt _ _ _ h]
      | body items =>
        dsimp only
        split
        · rw [getD_set_ne _ _ _ _ (by simp [List.length_set]; omega),
            getD_set_ne _ _ _ _ (by simp [List.length_set]; omega),
            getD_append_lt _ _ _ (by simp [List.length_set]; omega),
            getD_set_ne _ _ _ _ (by simp; omega),
            getD_append_lt _ _ _ (by simp; omega),
            getD_append_lt _ _ _ (by simp; omega),
            getD_append_lt _ _ _ h]
        · rw [getD_append_lt _ _ _ (by simp [List.length_set]; omega),
            getD_set_ne _ _ _ _ (by simp [List.length_set]; omega),
            getD_set_ne _ _ _ _ (by simp [List.length_set]; omega),
            getD_append_lt _ _ _ (by simp [List.length_set]; omega),
            getD_set_ne _ _ _ _ (by simp; omega),
            getD_append_lt _ _ _ (by simp; omega),
            getD_append_lt _ _ _ (by simp; omega),
            getD_append_lt _ _ _ h]

/-- C10 witness: a concrete turn leaves the two caller history cells of the
store untouched. -/
theorem C10_frame_histories_witness :
    (stream_chat_store "hi" 0 1 [[⟨"user", "old"⟩], [⟨"user", "o2"⟩]] "m" [] 0
        (.body [])).getD 0 []
      = ([[⟨"user", "old"⟩], [⟨"user", "o2"⟩]] : Store).getD 0 [] :=
  C10_frame_histories "hi" "m" [] 0 (.body []) 0 1
    [[⟨"user", "old"⟩], [⟨"user", "o2"⟩]] 0 (by decide)
